import Mathlib

/-!
Shallow embedding of `src/async/mem_map.rs` (the `MemMap` mapped-memory
region and its unmap protocol) from the `ocl` crate.

Modelling choices:
* Events, buffers, queues and the native map handle are identified by `Nat` ids.
* The device-queue/event substrate is a record of booleans saying whether each
  native call succeeds; every native call is recorded in an effect log carried
  by a `World` value, so "which native calls were issued, in which order, with
  which arguments" is observable.
* `Event::empty()` handles populated by the native enqueue are modelled by
  allocating a fresh id from `World.nextEvent` at the moment the out-event is
  requested.
* Rust `Result`/`panic!`/`assert!` are modelled by `CallResult`: `ok`,
  recoverable `err`, and `panic` (a fatal assertion / trap).  Since
  `enqueue_unmap` takes `&mut self`, errors returned with `?` keep the state
  mutations made before the failing call; the embedding therefore returns the
  state alongside the `CallResult` in every case.
* The compile-time `async_block` cargo feature is a boolean parameter
  `asyncBlock` (`true` = blocking version, matching `cfg!(feature = "async_block")`).
* The `enew` out-parameter (`Option<En>` with `En: ClNullEventPtr`) is
  modelled by a boolean "a destination was supplied" plus an output field
  `enewReceived` holding the event id written into that destination, if any.
-/

namespace Ocl

/-- Outcome of a call: success, recoverable `Err(..)`, or a fatal
`assert!`/`panic!` trap. -/
inductive CallResult where
  | ok : CallResult
  | err : String → CallResult
  | panic : String → CallResult
deriving DecidableEq, Repr

/-- A native call issued to the device-queue/event substrate, with its
arguments. -/
inductive Effect where
  | enqueueUnmapMemObject (queue buffer coreHandle : Nat)
      (waitList : Option (List Nat)) (outEvent : Option Nat) : Effect
  | waitFor (event : Nat) : Effect
  | setComplete (event : Nat) : Effect
  | setCallback (event : Nat) (targetEvent : Nat) : Effect
deriving DecidableEq, Repr

/-- The observable world: a fresh-event counter, the ordered log of native
calls issued, and the set (list) of events that have been marked complete. -/
structure World where
  nextEvent : Nat
  log : List Effect
  completed : List Nat
deriving DecidableEq, Repr

/-- Which native calls does the substrate accept?  One flag per native
operation used by `mem_map.rs`. -/
structure Substrate where
  enqueueOk : Bool
  waitOk : Bool
  setCompleteOk : Bool
  setCallbackOk : Bool
deriving DecidableEq, Repr

/-- The state of `pub struct MemMap<T>` (field for field; `core`, `buffer`
and `queue` are ids, events are ids). -/
structure MemMap where
  core : Nat
  len : Nat
  buffer : Nat
  queue : Nat
  unmap_wait_list : Option (List Nat)
  unmap_target_event : Option Nat
  callback_is_set : Bool
  is_unmapped : Bool
deriving DecidableEq, Repr

/-- Rust `Option::and`: `a.and(b)` is `b` when `a` is `Some`, else `None`.
Used verbatim on line 145 of `mem_map.rs`. -/
def optionAnd {α β : Type} (a : Option α) (b : Option β) : Option β :=
  match a with
  | some _ => b
  | none => none

/-- Result of `MemMap::enqueue_unmap`: the call result, the updated region
state, the updated world, and the event id written into the `enew`
destination (if any). -/
structure UnmapOutcome where
  res : CallResult
  self : MemMap
  w : World
  enewReceived : Option Nat
deriving DecidableEq, Repr

/-- `MemMap::register_event_trigger` (the `cfg(not(feature = "async_block"))`
callback-arming path).  The leading `debug_assert!` is modelled as a panic
when violated. -/
def register_event_trigger (sub : Substrate) (self : MemMap) (w : World)
    (event : Nat) : CallResult × MemMap × World :=
  if !(self.is_unmapped && self.unmap_target_event.isSome) then
    (CallResult.panic "debug_assert failed: is_unmapped and unmap_target_event", self, w)
  else if !self.callback_is_set then
    match self.unmap_target_event with
    | some ev =>
      let w1 : World := { w with log := w.log ++ [Effect.setCallback event ev] }
      if sub.setCallbackOk then
        (CallResult.ok, { self with callback_is_set := true }, w1)
      else
        (CallResult.err "set_callback failed", self, w1)
    | none =>
      (CallResult.panic "- ::register_event_trigger: No unmap event target has been configured with this MemMap.",
        self, w)
  else
    (CallResult.err "Callback already set.", self, w)

/-- `MemMap::enqueue_unmap(queue, ewait_opt, enew_opt)`. -/
def enqueue_unmap (asyncBlock : Bool) (sub : Substrate) (self : MemMap)
    (w : World) (queue : Option Nat) (ewait_opt : Option (List Nat))
    (enew_opt : Bool) : UnmapOutcome :=
  if !self.is_unmapped then
    if ewait_opt.isSome && self.unmap_wait_list.isSome then
      -- assert!(!(ewait_opt.is_some() && self.unmap_wait_list.is_some()), ...)
      { res := CallResult.panic "MemMap::enqueue_unmap: Cannot set an event wait list for the unmap command when the unmap_wait_list has already been set.",
        self := self, w := w, enewReceived := none }
    else
      let origin_event_opt : Option Nat :=
        if self.unmap_target_event.isSome || enew_opt then some w.nextEvent else none
      let w1 : World :=
        { w with
          nextEvent := if origin_event_opt.isSome then w.nextEvent + 1 else w.nextEvent,
          log := w.log ++ [Effect.enqueueUnmapMemObject (queue.getD self.queue)
            self.buffer self.core (optionAnd ewait_opt self.unmap_wait_list)
            origin_event_opt] }
      if !sub.enqueueOk then
        -- `?` on core::enqueue_unmap_mem_object: propagate before mutating state
        { res := CallResult.err "enqueue_unmap_mem_object failed",
          self := self, w := w1, enewReceived := none }
      else
        let self1 : MemMap := { self with is_unmapped := true }
        match origin_event_opt with
        | none => { res := CallResult.ok, self := self1, w := w1, enewReceived := none }
        | some origin_event =>
          -- enew.clone_from(&origin_event): destination receives the same event
          let enewReceived : Option Nat := if enew_opt then some origin_event else none
          if !asyncBlock then
            -- Async version (cfg!(not(feature = "async_block"))):
            if self1.unmap_target_event.isSome then
              match register_event_trigger sub self1 w1 origin_event with
              | (r, self2, w2) =>
                { res := r, self := self2, w := w2, enewReceived := enewReceived }
            else
              { res := CallResult.ok, self := self1, w := w1, enewReceived := enewReceived }
          else
            -- Blocking version:
            match self1.unmap_target_event with
            | some um_tar =>
              let w2 : World := { w1 with log := w1.log ++ [Effect.waitFor origin_event] }
              if !sub.waitOk then
                { res := CallResult.err "wait_for failed",
                  self := self1, w := w2, enewReceived := enewReceived }
              else
                let w3 : World := { w2 with log := w2.log ++ [Effect.setComplete um_tar] }
                if !sub.setCompleteOk then
                  { res := CallResult.err "set_complete failed",
                    self := self1, w := w3, enewReceived := enewReceived }
                else
                  { res := CallResult.ok, self := self1,
                    w := { w3 with completed := w3.completed ++ [um_tar] },
                    enewReceived := enewReceived }
            | none =>
              { res := CallResult.ok, self := self1, w := w1, enewReceived := enewReceived }
  else
    { res := CallResult.err "ocl_core::- ::unmap: Already unmapped.",
      self := self, w := w, enewReceived := none }

/-- `<MemMap as Deref>::deref`: traps if unmapped, else yields the slice
view (the slice contents themselves are irrelevant to the claims). -/
def deref (self : MemMap) : CallResult :=
  if self.is_unmapped then
    CallResult.panic "Mapped memory has been unmapped and cannot be accessed."
  else
    CallResult.ok

/-- `<MemMap as DerefMut>::deref_mut`: same trap condition as `deref`. -/
def deref_mut (self : MemMap) : CallResult :=
  if self.is_unmapped then
    CallResult.panic "Mapped memory has been unmapped and cannot be accessed."
  else
    CallResult.ok

/-- `MemMap::is_unmapped` accessor. -/
def MemMap.is_unmapped_acc (self : MemMap) : Bool := self.is_unmapped

/-- `<MemMap as Drop>::drop`: if still mapped, call
`enqueue_unmap(None, None, None)` and discard a recoverable error with
`.ok()` (a panic would still propagate, so it is kept). -/
def dropMemMap (asyncBlock : Bool) (sub : Substrate) (self : MemMap)
    (w : World) : CallResult × MemMap × World :=
  if !self.is_unmapped then
    let out := enqueue_unmap asyncBlock sub self w none none false
    (match out.res with
     | CallResult.panic m => CallResult.panic m
     | _ => CallResult.ok,
     out.self, out.w)
  else
    (CallResult.ok, self, w)

/-- The effects a computation appended to the log, given the starting and
ending worlds (every operation only appends to `log`). -/
def loggedEffects (w w' : World) : List Effect :=
  w'.log.drop w.log.length

/-- Is an effect a native unmap command? -/
def isNativeUnmap : Effect → Bool
  | Effect.enqueueUnmapMemObject _ _ _ _ _ => true
  | _ => false

/-! ### Concrete inputs used by closed theorems and witnesses -/

/-- An initial world. -/
def w0 : World := { nextEvent := 10, log := [], completed := [] }

/-- A substrate accepting every native call. -/
def subAllOk : Substrate :=
  { enqueueOk := true, waitOk := true, setCompleteOk := true, setCallbackOk := true }

/-- A substrate whose blocking `wait_for` fails (everything else succeeds). -/
def subWaitFails : Substrate :=
  { enqueueOk := true, waitOk := false, setCompleteOk := true, setCallbackOk := true }

/-- A fresh region constructed with an unmap wait list (event 5) and no
target event. -/
def regionCtorWaitList : MemMap :=
  { core := 1, len := 4, buffer := 2, queue := 3,
    unmap_wait_list := some [5], unmap_target_event := none,
    callback_is_set := false, is_unmapped := false }

/-- A fresh region with neither a wait list nor a target event. -/
def regionPlain : MemMap :=
  { core := 1, len := 4, buffer := 2, queue := 3,
    unmap_wait_list := none, unmap_target_event := none,
    callback_is_set := false, is_unmapped := false }

/-- A fresh region with a target event (event 7) and no wait list. -/
def regionWithTarget : MemMap :=
  { core := 1, len := 4, buffer := 2, queue := 3,
    unmap_wait_list := none, unmap_target_event := some 7,
    callback_is_set := false, is_unmapped := false }

/-! ### Claims -/

/-- Shared helper: whenever `enqueue_unmap` returns `Ok(())`, the resulting
region state has `is_unmapped = true`. -/
theorem enqueue_unmap_ok_unmapped (asyncBlock : Bool) (sub : Substrate) (self : MemMap)
    (w : World) (q : Option Nat) (ew : Option (List Nat)) (en : Bool)
    (h : (enqueue_unmap asyncBlock sub self w q ew en).res = CallResult.ok) :
    (enqueue_unmap asyncBlock sub self w q ew en).self.is_unmapped = true := by
  obtain ⟨c, l, b, qu, uwl, ute, cbs, unm⟩ := self
  obtain ⟨e1, e2, e3, e4⟩ := sub
  cases unm <;> cases ew <;> cases uwl <;> cases ute <;> cases en <;>
    cases asyncBlock <;> cases cbs <;> cases e1 <;> cases e2 <;> cases e3 <;> cases e4 <;>
    simp_all [enqueue_unmap, register_event_trigger]

/-- C1: the claim says the native unmap command waits on the per-call wait
list if one was given, else on the wait list set at construction.  The code
passes `ewait_opt.and(self.unmap_wait_list.as_ref())`, which is `None`
whenever the preceding assert admits the call, so neither wait-list source is
ever forwarded: a region built with wait list `[5]` (and no per-call list)
issues a native unmap with an empty wait list, and so does a region with a
per-call list `[7]` (and no constructor list). -/
theorem C1_wait_list_never_forwarded :
    (regionCtorWaitList.unmap_wait_list = some [5] ∧
      (enqueue_unmap false subAllOk regionCtorWaitList w0 none none false).res = CallResult.ok ∧
      (enqueue_unmap false subAllOk regionCtorWaitList w0 none none false).w.log =
        [Effect.enqueueUnmapMemObject 3 2 1 none none]) ∧
    ((enqueue_unmap false subAllOk regionPlain w0 none (some [7]) false).res = CallResult.ok ∧
      (enqueue_unmap false subAllOk regionPlain w0 none (some [7]) false).w.log =
        [Effect.enqueueUnmapMemObject 3 2 1 none none]) := by
  decide

/-- C2: for every region, after `enqueue_unmap` returns success,
`is_unmapped()` returns `true`, and any subsequent typed slice access (read
via `Deref` or write via `DerefMut`) traps with a fatal assertion rather
than returning a recoverable error. -/
theorem C2_success_unmaps_and_access_traps (asyncBlock : Bool) (sub : Substrate)
    (self : MemMap) (w : World) (q : Option Nat) (ew : Option (List Nat)) (en : Bool)
    (h : (enqueue_unmap asyncBlock sub self w q ew en).res = CallResult.ok) :
    (enqueue_unmap asyncBlock sub self w q ew en).self.is_unmapped_acc = true ∧
    deref (enqueue_unmap asyncBlock sub self w q ew en).self =
      CallResult.panic "Mapped memory has been unmapped and cannot be accessed." ∧
    deref_mut (enqueue_unmap asyncBlock sub self w q ew en).self =
      CallResult.panic "Mapped memory has been unmapped and cannot be accessed." := by
  have hu := enqueue_unmap_ok_unmapped asyncBlock sub self w q ew en h
  refine ⟨?_, ?_, ?_⟩ <;> simp [MemMap.is_unmapped_acc, deref, deref_mut, hu]

/-- C2 witness: a concrete successful call on a plain region, after which
`is_unmapped()` is `true` and `deref`/`deref_mut` trap. -/
theorem C2_success_unmaps_and_access_traps_witness :
    (enqueue_unmap false subAllOk regionPlain w0 none none false).self.is_unmapped_acc = true ∧
    deref (enqueue_unmap false subAllOk regionPlain w0 none none false).self =
      CallResult.panic "Mapped memory has been unmapped and cannot be accessed." ∧
    deref_mut (enqueue_unmap false subAllOk regionPlain w0 none none false).self =
      CallResult.panic "Mapped memory has been unmapped and cannot be accessed." :=
  C2_success_unmaps_and_access_traps false subAllOk regionPlain w0 none none false (by decide)

/-- C3: a second `enqueue_unmap` on a region whose first `enqueue_unmap`
succeeded returns the "already unmapped" recoverable error, issues no native
call (the world is unchanged) and leaves the region state unchanged. -/
theorem C3_second_call_already_unmapped (asyncBlock : Bool) (sub : Substrate)
    (self : MemMap) (w : World) (q : Option Nat) (ew : Option (List Nat)) (en : Bool)
    (asyncBlock2 : Bool) (sub2 : Substrate) (q2 : Option Nat) (ew2 : Option (List Nat))
    (en2 : Bool)
    (h : (enqueue_unmap asyncBlock sub self w q ew en).res = CallResult.ok) :
    enqueue_unmap asyncBlock2 sub2 (enqueue_unmap asyncBlock sub self w q ew en).self
        (enqueue_unmap asyncBlock sub self w q ew en).w q2 ew2 en2 =
      { res := CallResult.err "ocl_core::- ::unmap: Already unmapped.",
        self := (enqueue_unmap asyncBlock sub self w q ew en).self,
        w := (enqueue_unmap asyncBlock sub self w q ew en).w,
        enewReceived := none } := by
  have hu := enqueue_unmap_ok_unmapped asyncBlock sub self w q ew en h
  rw [enqueue_unmap]
  simp [hu]

/-- C3 witness: a successful first call on a plain region, then a second
call that errs with everything unchanged. -/
theorem C3_second_call_already_unmapped_witness :
    enqueue_unmap true subAllOk (enqueue_unmap false subAllOk regionPlain w0 none none false).self
        (enqueue_unmap false subAllOk regionPlain w0 none none false).w none none true =
      { res := CallResult.err "ocl_core::- ::unmap: Already unmapped.",
        self := (enqueue_unmap false subAllOk regionPlain w0 none none false).self,
        w := (enqueue_unmap false subAllOk regionPlain w0 none none false).w,
        enewReceived := none } :=
  C3_second_call_already_unmapped false subAllOk regionPlain w0 none none false
    true subAllOk none none true (by decide)

/-- C4: on a not-yet-unmapped region constructed with a wait list, calling
`enqueue_unmap` with a per-call wait list fails the `assert!` (a fatal
panic, not a recoverable error) before the native enqueue: the world and
the region state are returned unchanged, so no enqueue side effect is
observed and the region stays mapped. -/
theorem C4_conflicting_wait_lists_panic (asyncBlock : Bool) (sub : Substrate)
    (self : MemMap) (w : World) (q : Option Nat) (ew : Option (List Nat)) (en : Bool)
    (hm : self.is_unmapped = false) (hw : self.unmap_wait_list.isSome = true)
    (he : ew.isSome = true) :
    enqueue_unmap asyncBlock sub self w q ew en =
      { res := CallResult.panic "MemMap::enqueue_unmap: Cannot set an event wait list for the unmap command when the unmap_wait_list has already been set.",
        self := self, w := w, enewReceived := none } := by
  rw [enqueue_unmap]
  simp [hm, hw, he]

/-- C4 witness: the concrete region with constructor wait list `[5]` and a
per-call wait list `[7]` panics with state and world unchanged. -/
theorem C4_conflicting_wait_lists_panic_witness :
    enqueue_unmap false subAllOk regionCtorWaitList w0 none (some [7]) false =
      { res := CallResult.panic "MemMap::enqueue_unmap: Cannot set an event wait list for the unmap command when the unmap_wait_list has already been set.",
        self := regionCtorWaitList, w := w0, enewReceived := none } :=
  C4_conflicting_wait_lists_panic false subAllOk regionCtorWaitList w0 none (some [7]) false
    (by decide) (by decide) (by decide)

set_option maxHeartbeats 1600000 in
/-- C5: in every successful `enqueue_unmap` call, a fresh completion event
is requested from the substrate (as the out-event of the native unmap
command, with the fresh-event counter advancing by exactly one) if and only
if a completion target or an `enew` destination is set; the destination
receives exactly that event, and the same event identity is the one the
target-completion machinery uses (the blocking wait, or the registered
callback). -/
theorem C5_single_fresh_event (asyncBlock : Bool) (sub : Substrate) (self : MemMap)
    (w : World) (q : Option Nat) (ew : Option (List Nat)) (en : Bool)
    (h : (enqueue_unmap asyncBlock sub self w q ew en).res = CallResult.ok) :
    ((self.unmap_target_event.isSome || en) = false →
      (enqueue_unmap asyncBlock sub self w q ew en).w.nextEvent = w.nextEvent ∧
      (enqueue_unmap asyncBlock sub self w q ew en).enewReceived = none ∧
      Effect.enqueueUnmapMemObject (q.getD self.queue) self.buffer self.core
          (optionAnd ew self.unmap_wait_list) none ∈
        (enqueue_unmap asyncBlock sub self w q ew en).w.log) ∧
    ((self.unmap_target_event.isSome || en) = true →
      (enqueue_unmap asyncBlock sub self w q ew en).w.nextEvent = w.nextEvent + 1 ∧
      Effect.enqueueUnmapMemObject (q.getD self.queue) self.buffer self.core
          (optionAnd ew self.unmap_wait_list) (some w.nextEvent) ∈
        (enqueue_unmap asyncBlock sub self w q ew en).w.log) ∧
    (en = true →
      (enqueue_unmap asyncBlock sub self w q ew en).enewReceived = some w.nextEvent) ∧
    (∀ t, self.unmap_target_event = some t →
      (asyncBlock = true →
        Effect.waitFor w.nextEvent ∈ (enqueue_unmap asyncBlock sub self w q ew en).w.log) ∧
      (asyncBlock = false →
        Effect.setCallback w.nextEvent t ∈
          (enqueue_unmap asyncBlock sub self w q ew en).w.log)) := by
  obtain ⟨c, l, b, qu, uwl, ute, cbs, unm⟩ := self
  obtain ⟨e1, e2, e3, e4⟩ := sub
  cases unm <;> cases ew <;> cases uwl <;> cases ute <;> cases en <;>
    cases asyncBlock <;> cases cbs <;> cases e1 <;> cases e2 <;> cases e3 <;> cases e4 <;>
    simp_all [enqueue_unmap, register_event_trigger, optionAnd]

/-- C5 witness: a concrete successful async-mode call with both a
completion target (event 7) and an `enew` destination: one fresh event
(id 10) is requested, is handed to the destination, and is the event the
callback is registered on. -/
theorem C5_single_fresh_event_witness :
    ((regionWithTarget.unmap_target_event.isSome || true) = false →
      (enqueue_unmap false subAllOk regionWithTarget w0 none none true).w.nextEvent = w0.nextEvent ∧
      (enqueue_unmap false subAllOk regionWithTarget w0 none none true).enewReceived = none ∧
      Effect.enqueueUnmapMemObject ((none : Option Nat).getD regionWithTarget.queue)
          regionWithTarget.buffer regionWithTarget.core
          (optionAnd (none : Option (List Nat)) regionWithTarget.unmap_wait_list) none ∈
        (enqueue_unmap false subAllOk regionWithTarget w0 none none true).w.log) ∧
    ((regionWithTarget.unmap_target_event.isSome || true) = true →
      (enqueue_unmap false subAllOk regionWithTarget w0 none none true).w.nextEvent = w0.nextEvent + 1 ∧
      Effect.enqueueUnmapMemObject ((none : Option Nat).getD regionWithTarget.queue)
          regionWithTarget.buffer regionWithTarget.core
          (optionAnd (none : Option (List Nat)) regionWithTarget.unmap_wait_list)
          (some w0.nextEvent) ∈
        (enqueue_unmap false subAllOk regionWithTarget w0 none none true).w.log) ∧
    (true = true →
      (enqueue_unmap false subAllOk regionWithTarget w0 none none true).enewReceived = some w0.nextEvent) ∧
    (∀ t, regionWithTarget.unmap_target_event = some t →
      (false = true →
        Effect.waitFor w0.nextEvent ∈ (enqueue_unmap false subAllOk regionWithTarget w0 none none true).w.log) ∧
      (false = false →
        Effect.setCallback w0.nextEvent t ∈
          (enqueue_unmap false subAllOk regionWithTarget w0 none none true).w.log)) :=
  C5_single_fresh_event false subAllOk regionWithTarget w0 none none true (by decide)

/-- C6: in blocking completion mode (`async_block` feature), for every
region with a completion target set, a successful `enqueue_unmap` waits on
the fresh native event and marks the completion target complete before
returning. -/
theorem C6_blocking_completes_target (sub : Substrate) (self : MemMap) (w : World)
    (q : Option Nat) (ew : Option (List Nat)) (en : Bool) (t : Nat)
    (ht : self.unmap_target_event = some t)
    (h : (enqueue_unmap true sub self w q ew en).res = CallResult.ok) :
    Effect.waitFor w.nextEvent ∈ (enqueue_unmap true sub self w q ew en).w.log ∧
    Effect.setComplete t ∈ (enqueue_unmap true sub self w q ew en).w.log ∧
    t ∈ (enqueue_unmap true sub self w q ew en).w.completed := by
  obtain ⟨c, l, b, qu, uwl, ute, cbs, unm⟩ := self
  obtain ⟨e1, e2, e3, e4⟩ := sub
  simp only at ht
  subst ht
  cases unm <;> cases ew <;> cases uwl <;> cases en <;> cases cbs <;>
    cases e1 <;> cases e2 <;> cases e3 <;> cases e4 <;>
    simp_all [enqueue_unmap]

/-- C6 witness: a concrete blocking-mode call on a region with completion
target 7: the wait and the completion marking are observed in the log and
7 is complete when the call returns. -/
theorem C6_blocking_completes_target_witness :
    Effect.waitFor w0.nextEvent ∈ (enqueue_unmap true subAllOk regionWithTarget w0 none none false).w.log ∧
    Effect.setComplete 7 ∈ (enqueue_unmap true subAllOk regionWithTarget w0 none none false).w.log ∧
    7 ∈ (enqueue_unmap true subAllOk regionWithTarget w0 none none false).w.completed :=
  C6_blocking_completes_target subAllOk regionWithTarget w0 none none false 7
    (by decide) (by decide)

/-- C7: on a not-yet-unmapped region (with the wait-list assert satisfied),
the `unmapped` flag becomes true exactly when the native enqueue is
accepted: a rejected enqueue propagates the error with `is_unmapped` still
false, and an accepted enqueue leaves `is_unmapped = true` regardless of
what happens afterwards (waits, callback registration, completion). -/
theorem C7_unmapped_iff_enqueue_accepted (asyncBlock : Bool) (sub : Substrate)
    (self : MemMap) (w : World) (q : Option Nat) (ew : Option (List Nat)) (en : Bool)
    (hm : self.is_unmapped = false)
    (hok : ¬(ew.isSome = true ∧ self.unmap_wait_list.isSome = true)) :
    (sub.enqueueOk = false →
      (enqueue_unmap asyncBlock sub self w q ew en).res =
          CallResult.err "enqueue_unmap_mem_object failed" ∧
      (enqueue_unmap asyncBlock sub self w q ew en).self.is_unmapped = false) ∧
    (sub.enqueueOk = true →
      (enqueue_unmap asyncBlock sub self w q ew en).self.is_unmapped = true) := by
  obtain ⟨c, l, b, qu, uwl, ute, cbs, unm⟩ := self
  obtain ⟨e1, e2, e3, e4⟩ := sub
  cases unm <;> cases ew <;> cases uwl <;> cases ute <;> cases en <;>
    cases asyncBlock <;> cases cbs <;> cases e1 <;> cases e2 <;> cases e3 <;> cases e4 <;>
    simp_all [enqueue_unmap, register_event_trigger]

/-- C7 witness: at a concrete region, a rejecting substrate leaves the
region mapped with the propagated error, and an accepting one unmaps it. -/
theorem C7_unmapped_iff_enqueue_accepted_witness :
    (({ subAllOk with enqueueOk := false } : Substrate).enqueueOk = false →
      (enqueue_unmap false { subAllOk with enqueueOk := false } regionPlain w0 none none false).res =
          CallResult.err "enqueue_unmap_mem_object failed" ∧
      (enqueue_unmap false { subAllOk with enqueueOk := false } regionPlain w0 none none false).self.is_unmapped = false) ∧
    (({ subAllOk with enqueueOk := false } : Substrate).enqueueOk = true →
      (enqueue_unmap false { subAllOk with enqueueOk := false } regionPlain w0 none none false).self.is_unmapped = true) :=
  C7_unmapped_iff_enqueue_accepted false { subAllOk with enqueueOk := false }
    regionPlain w0 none none false (by decide) (by decide)

/-- C10: in blocking mode there is an execution in which the native enqueue
succeeds and the subsequent `wait_for` on the fresh event fails, so
`enqueue_unmap` returns an error while `is_unmapped` is already `true`. -/
theorem C10_error_with_unmapped_true :
    (enqueue_unmap true subWaitFails regionWithTarget w0 none none false).res =
        CallResult.err "wait_for failed" ∧
    (enqueue_unmap true subWaitFails regionWithTarget w0 none none false).self.is_unmapped =
        true := by
  decide

/-- C8: dropping a region that was never unmapped issues exactly one native
unmap command, with no overrides (the owning queue, no wait list), and the
drop path never fails — any recoverable error from the best-effort unmap is
discarded by `.ok()` and no panic is reachable; dropping an
already-unmapped region issues no command and changes nothing. -/
theorem C8_drop_best_effort (asyncBlock : Bool) (sub : Substrate) (self : MemMap)
    (w : World) :
    (dropMemMap asyncBlock sub self w).1 = CallResult.ok ∧
    (self.is_unmapped = false →
      (loggedEffects w (dropMemMap asyncBlock sub self w).2.2).countP isNativeUnmap = 1 ∧
      Effect.enqueueUnmapMemObject self.queue self.buffer self.core none
          (if self.unmap_target_event.isSome then some w.nextEvent else none) ∈
        loggedEffects w (dropMemMap asyncBlock sub self w).2.2) ∧
    (self.is_unmapped = true →
      (dropMemMap asyncBlock sub self w).2.2 = w ∧
      (dropMemMap asyncBlock sub self w).2.1 = self) := by
  obtain ⟨c, l, b, qu, uwl, ute, cbs, unm⟩ := self
  obtain ⟨e1, e2, e3, e4⟩ := sub
  cases unm <;> cases ute <;> cases cbs <;> cases asyncBlock <;>
    cases e1 <;> cases e2 <;> cases e3 <;> cases e4 <;>
    simp_all [dropMemMap, enqueue_unmap, register_event_trigger, loggedEffects,
      isNativeUnmap, optionAnd, List.drop_left]

/-- C8 witness: dropping the concrete never-unmapped region with a target,
under a substrate whose enqueue fails, in blocking mode. -/
theorem C8_drop_best_effort_witness :
    (dropMemMap true { subAllOk with enqueueOk := false } regionWithTarget w0).1 = CallResult.ok ∧
    (regionWithTarget.is_unmapped = false →
      (loggedEffects w0 (dropMemMap true { subAllOk with enqueueOk := false } regionWithTarget w0).2.2).countP isNativeUnmap = 1 ∧
      Effect.enqueueUnmapMemObject regionWithTarget.queue regionWithTarget.buffer
          regionWithTarget.core none
          (if regionWithTarget.unmap_target_event.isSome then some w0.nextEvent else none) ∈
        loggedEffects w0 (dropMemMap true { subAllOk with enqueueOk := false } regionWithTarget w0).2.2) ∧
    (regionWithTarget.is_unmapped = true →
      (dropMemMap true { subAllOk with enqueueOk := false } regionWithTarget w0).2.2 = w0 ∧
      (dropMemMap true { subAllOk with enqueueOk := false } regionWithTarget w0).2.1 = regionWithTarget) :=
  C8_drop_best_effort true { subAllOk with enqueueOk := false } regionWithTarget w0

/-- Shared helper: `enqueue_unmap` on an already-unmapped region returns
the region state unchanged. -/
theorem enqueue_unmap_of_unmapped (asyncBlock : Bool) (sub : Substrate) (self : MemMap)
    (w : World) (q : Option Nat) (ew : Option (List Nat)) (en : Bool)
    (h : self.is_unmapped = true) :
    (enqueue_unmap asyncBlock sub self w q ew en).self = self := by
  rw [enqueue_unmap]
  simp [h]

/-- Shared helper: `register_event_trigger` never changes `is_unmapped`. -/
theorem register_event_trigger_unmapped_mono (sub : Substrate) (self : MemMap)
    (w : World) (ev : Nat) (h : self.is_unmapped = true) :
    (register_event_trigger sub self w ev).2.1.is_unmapped = true := by
  obtain ⟨c, l, b, qu, uwl, ute, cbs, unm⟩ := self
  obtain ⟨e1, e2, e3, e4⟩ := sub
  cases cbs <;> cases ute <;> cases e4 <;>
    simp_all [register_event_trigger]

/-- Shared helper: dropping an already-unmapped region returns the state
unchanged. -/
theorem dropMemMap_of_unmapped (asyncBlock : Bool) (sub : Substrate) (self : MemMap)
    (w : World) (h : self.is_unmapped = true) :
    (dropMemMap asyncBlock sub self w).2.1 = self := by
  rw [dropMemMap]
  simp [h]

/-- Shared helper: if `enqueue_unmap` arms the callback flag, the resulting
state has a completion target set and is unmapped. -/
theorem enqueue_unmap_callback_armed (asyncBlock : Bool) (sub : Substrate) (self : MemMap)
    (w : World) (q : Option Nat) (ew : Option (List Nat)) (en : Bool)
    (h1 : (enqueue_unmap asyncBlock sub self w q ew en).self.callback_is_set = true)
    (h2 : self.callback_is_set = false) :
    (enqueue_unmap asyncBlock sub self w q ew en).self.unmap_target_event.isSome = true ∧
    (enqueue_unmap asyncBlock sub self w q ew en).self.is_unmapped = true := by
  obtain ⟨c, l, b, qu, uwl, ute, cbs, unm⟩ := self
  obtain ⟨e1, e2, e3, e4⟩ := sub
  cases unm <;> cases ew <;> cases uwl <;> cases ute <;> cases en <;>
    cases asyncBlock <;> cases cbs <;> cases e1 <;> cases e2 <;> cases e3 <;> cases e4 <;>
    simp_all [enqueue_unmap, register_event_trigger]

/-- Shared helper: if `register_event_trigger` arms the callback flag, the
resulting state has a completion target set and is unmapped. -/
theorem register_event_trigger_callback_armed (sub : Substrate) (self : MemMap)
    (w : World) (ev : Nat)
    (h1 : (register_event_trigger sub self w ev).2.1.callback_is_set = true)
    (h2 : self.callback_is_set = false) :
    (register_event_trigger sub self w ev).2.1.unmap_target_event.isSome = true ∧
    (register_event_trigger sub self w ev).2.1.is_unmapped = true := by
  obtain ⟨c, l, b, qu, uwl, ute, cbs, unm⟩ := self
  obtain ⟨e1, e2, e3, e4⟩ := sub
  cases unm <;> cases cbs <;> cases ute <;> cases e4 <;>
    simp_all [register_event_trigger]

/-- Shared helper: the second component of the drop glue is the state of
the internal `enqueue_unmap` call when still mapped. -/
theorem dropMemMap_self_of_mapped (asyncBlock : Bool) (sub : Substrate) (self : MemMap)
    (w : World) (h : self.is_unmapped = false) :
    (dropMemMap asyncBlock sub self w).2.1 =
      (enqueue_unmap asyncBlock sub self w none none false).self := by
  rw [dropMemMap]
  simp [h]

/-- C9: every state-changing operation (`enqueue_unmap`,
`register_event_trigger`, the drop glue) keeps `is_unmapped` monotonic
(once `true`, never reset), and `callback_is_set` only becomes `true` in a
resulting state where a completion target is set and `is_unmapped` is
`true`. -/
theorem C9_invariants (asyncBlock : Bool) (sub : Substrate) (self : MemMap) (w : World)
    (q : Option Nat) (ew : Option (List Nat)) (en : Bool) (ev : Nat) :
    (self.is_unmapped = true →
      (enqueue_unmap asyncBlock sub self w q ew en).self.is_unmapped = true) ∧
    (self.is_unmapped = true →
      (register_event_trigger sub self w ev).2.1.is_unmapped = true) ∧
    (self.is_unmapped = true →
      (dropMemMap asyncBlock sub self w).2.1.is_unmapped = true) ∧
    ((enqueue_unmap asyncBlock sub self w q ew en).self.callback_is_set = true →
      self.callback_is_set = false →
      (enqueue_unmap asyncBlock sub self w q ew en).self.unmap_target_event.isSome = true ∧
      (enqueue_unmap asyncBlock sub self w q ew en).self.is_unmapped = true) ∧
    ((register_event_trigger sub self w ev).2.1.callback_is_set = true →
      self.callback_is_set = false →
      (register_event_trigger sub self w ev).2.1.unmap_target_event.isSome = true ∧
      (register_event_trigger sub self w ev).2.1.is_unmapped = true) ∧
    ((dropMemMap asyncBlock sub self w).2.1.callback_is_set = true →
      self.callback_is_set = false →
      (dropMemMap asyncBlock sub self w).2.1.unmap_target_event.isSome = true ∧
      (dropMemMap asyncBlock sub self w).2.1.is_unmapped = true) := by
  refine ⟨?_, ?_, ?_, ?_, ?_, ?_⟩
  · intro h
    rw [enqueue_unmap_of_unmapped asyncBlock sub self w q ew en h]
    exact h
  · exact register_event_trigger_unmapped_mono sub self w ev
  · intro h
    rw [dropMemMap_of_unmapped asyncBlock sub self w h]
    exact h
  · exact enqueue_unmap_callback_armed asyncBlock sub self w q ew en
  · exact register_event_trigger_callback_armed sub self w ev
  · intro h1 h2
    cases hunm : self.is_unmapped with
    | true =>
      rw [dropMemMap_of_unmapped asyncBlock sub self w hunm] at h1
      exact absurd h1 (by simp [h2])
    | false =>
      rw [dropMemMap_self_of_mapped asyncBlock sub self w hunm] at h1 ⊢
      exact enqueue_unmap_callback_armed asyncBlock sub self w none none false h1 h2

/-- C9 witness: the invariants instantiated at a concrete async-mode call
on the region with completion target 7. -/
theorem C9_invariants_witness :
    (regionWithTarget.is_unmapped = true →
      (enqueue_unmap false subAllOk regionWithTarget w0 none none false).self.is_unmapped = true) ∧
    (regionWithTarget.is_unmapped = true →
      (register_event_trigger subAllOk regionWithTarget w0 10).2.1.is_unmapped = true) ∧
    (regionWithTarget.is_unmapped = true →
      (dropMemMap false subAllOk regionWithTarget w0).2.1.is_unmapped = true) ∧
    ((enqueue_unmap false subAllOk regionWithTarget w0 none none false).self.callback_is_set = true →
      regionWithTarget.callback_is_set = false →
      (enqueue_unmap false subAllOk regionWithTarget w0 none none false).self.unmap_target_event.isSome = true ∧
      (enqueue_unmap false subAllOk regionWithTarget w0 none none false).self.is_unmapped = true) ∧
    ((register_event_trigger subAllOk regionWithTarget w0 10).2.1.callback_is_set = true →
      regionWithTarget.callback_is_set = false →
      (register_event_trigger subAllOk regionWithTarget w0 10).2.1.unmap_target_event.isSome = true ∧
      (register_event_trigger subAllOk regionWithTarget w0 10).2.1.is_unmapped = true) ∧
    ((dropMemMap false subAllOk regionWithTarget w0).2.1.callback_is_set = true →
      regionWithTarget.callback_is_set = false →
      (dropMemMap false subAllOk regionWithTarget w0).2.1.unmap_target_event.isSome = true ∧
      (dropMemMap false subAllOk regionWithTarget w0).2.1.is_unmapped = true) :=
  C9_invariants false subAllOk regionWithTarget w0 none none false 10

end Ocl
